import Mathlib

/-!
Verification development for the Navi regulatory-comment analysis backend.

The definitions below are a shallow embedding of the Python modules
`backend/ai_comment_analyzer.py`, `backend/gpt_oss_tools.py`,
`backend/ollama_comment_analyzer.py` and `backend/regulations_gov_api.py`.
Python strings are `String`, Python `None`-able strings are `Option String`
(with Python truthiness: `None` and `""` are falsy), machine floats that only
ever hold small decimal constants and their quotients are modelled as exact
rationals, and fallible calls are `Except String`.  External I/O (HTTP
fetches, clock) is passed in as explicit parameters.  All definitions are
executable.
-/

namespace Navi

/-! ## Python string primitives

Models of the Python `str` operations used by the analyzer: `str.lower`,
`str.strip`, `str.title`, `str.replace('_',' ')`, `str.count`, `str.find`,
the `in` substring operator, `str.startswith`, `str.split()` (whitespace
split) and `re.split` on sentence delimiters.  The texts handled are ASCII,
where `Char.toLower`/`Char.isWhitespace` agree with Python. -/

/-- Python `s.lower()`. -/
def pyLower (s : String) : String :=
  String.mk (s.data.map Char.toLower)

/-- Python `s.strip()`: drop whitespace from both ends. -/
def pyStrip (s : String) : String :=
  String.mk (((s.data.dropWhile Char.isWhitespace).reverse.dropWhile Char.isWhitespace).reverse)

/-- Helper for `pyTitle`: the Bool records whether the previous char was alphabetic. -/
def pyTitleAux : Bool → List Char → List Char
  | _, [] => []
  | prevAlpha, c :: rest =>
    let c2 := if c.isAlpha then (if prevAlpha then c.toLower else c.toUpper) else c
    c2 :: pyTitleAux c.isAlpha rest

/-- Python `s.title()`: first letter of each alphabetic run upper-cased, the rest lower-cased. -/
def pyTitle (s : String) : String :=
  String.mk (pyTitleAux false s.data)

/-- Python `s.replace('_', ' ')` (single-character replacement as used by the analyzer). -/
def pyReplaceUnderscore (s : String) : String :=
  String.mk (s.data.map (fun c => if c = '_' then ' ' else c))

/-- Scanner for `countOcc`: the counter holds how many characters of the most
recent match remain to be skipped, so occurrences never overlap. -/
def countOccGo (pat : List Char) : List Char → Nat → Nat
  | [], _ => 0
  | _ :: rest, k + 1 => countOccGo pat rest k
  | c :: rest, 0 =>
    if pat.isPrefixOf (c :: rest) then 1 + countOccGo pat rest (pat.length - 1)
    else countOccGo pat rest 0

/-- Python `s.count(pat)`: number of non-overlapping occurrences of `pat`,
scanning left to right.  Python returns `len(s) + 1` for an empty pattern. -/
def countOcc (pat : List Char) (s : List Char) : Nat :=
  if pat.length = 0 then s.length + 1 else countOccGo pat s 0

/-- Python `s.find(pat)`: index of the first occurrence, `none` when absent. -/
def findSub (pat : List Char) (s : List Char) : Option Nat :=
  if pat.isPrefixOf s then some 0
  else
    match s with
    | [] => none
    | _ :: rest => (findSub pat rest).map (· + 1)

/-- Python `s.find(pat, start)`. -/
def findSubFrom (pat : List Char) (s : List Char) (start : Nat) : Option Nat :=
  (findSub pat (s.drop start)).map (· + start)

/-- Python `pat in s` substring test (equivalent to `s.find(pat) >= 0`). -/
def pyContains (pat s : String) : Bool :=
  (findSub pat.data s.data).isSome

/-- Python `s.startswith(pat)`. -/
def pyStartsWith (pat s : String) : Bool :=
  pat.data.isPrefixOf s.data

/-- Python `s.split()`: split on whitespace runs, dropping empty pieces. -/
def pySplitWsAux : List Char → List Char → List (List Char)
  | acc, [] => if acc.isEmpty then [] else [acc.reverse]
  | acc, c :: rest =>
    if c.isWhitespace then
      if acc.isEmpty then pySplitWsAux [] rest
      else acc.reverse :: pySplitWsAux [] rest
    else pySplitWsAux (c :: acc) rest

/-- Python `s.split()` on a `String`. -/
def pySplitWs (s : String) : List String :=
  (pySplitWsAux [] s.data).map String.mk

/-- Python `re.split('[' ++ delims ++ ']', s)`: split at every delimiter
character, keeping empty pieces. -/
def splitOnAny (delims : List Char) : List Char → List (List Char)
  | [] => [[]]
  | c :: rest =>
    if delims.contains c then [] :: splitOnAny delims rest
    else
      match splitOnAny delims rest with
      | [] => [[c]]
      | t :: ts => (c :: t) :: ts

/-- The sentence splitting on the three delimiters used throughout the analyzer. -/
def sentenceSplit (text : String) : List String :=
  (splitOnAny ['.', '!', '?'] text.data).map String.mk

/-- Accumulator pass for `dedupFirst`. -/
def dedupFirstGo (seen : List String) : List String → List String
  | [] => []
  | x :: xs =>
    if seen.contains x then dedupFirstGo seen xs
    else x :: dedupFirstGo (seen ++ [x]) xs

/-- First-occurrence deduplication.  Models Python `list(set(xs))` up to
order: CPython set iteration order is unspecified, and no claim settled in
this file depends on the order of a deduplicated list. -/
def dedupFirst (l : List String) : List String :=
  dedupFirstGo [] l

/-- Python truthiness of an optional string: `None` and `""` are falsy. -/
def isTruthyStr : Option String → Bool
  | none => false
  | some s => s ≠ ""

/-- Python `a or b` on optional strings: the first operand when truthy, else the second. -/
def pyOrStr (a b : Option String) : Option String :=
  if isTruthyStr a then a else b

/-! ## Data model

Embeds the `RegulationsComment` dataclass of `regulations_gov_api.py` and the
dictionaries built by `ai_comment_analyzer.py`. -/

/-- The `RegulationsComment` dataclass. -/
structure RegulationsComment where
  id : String
  comment_on_document_id : String
  comment_text : String
  submitter_name : Option String := none
  organization_name : Option String := none
  first_name : Option String := none
  last_name : Option String := none
  posted_date : String := ""
  title : Option String := none
  docket_id : String := ""
  agency_id : String := ""
deriving DecidableEq, Repr

/-- One entry of the `stakeholder_info` list built by `_prepare_comment_data`. -/
structure StakeholderInfo where
  name : Option String
  type : String
  organization : Option String
deriving DecidableEq, Repr

/-- The dictionary returned by `_prepare_comment_data`. -/
structure Corpus where
  texts : List String
  stakeholders : List StakeholderInfo
  dates : List String
  total_comments : Nat
deriving DecidableEq, Repr

/-- One entry of the theme list built by `_identify_regulatory_themes`. -/
structure Theme where
  theme : String
  frequency : Nat
  keywords_found : List String
  relevance_score : ℚ
deriving DecidableEq, Repr

/-- One entry of the impact list built by `_assess_regulatory_impacts`. -/
structure ImpactAssessment where
  impact_type : String
  mention_count : Nat
  affected_comments : List Nat
  impact_score : ℚ
deriving DecidableEq, Repr

/-- The three concern buckets built by `_analyze_stakeholder_concerns`. -/
structure StakeholderConcerns where
  organizations : List String
  individuals : List String
  common : List String
deriving DecidableEq, Repr

/-- The dictionary returned by `_perform_basic_analysis` in `ai_comment_analyzer.py`. -/
structure BasicAnalysis where
  key_points : List String
  perspectives : List String
  sentiment : String
  stakeholder_types : List String
deriving DecidableEq, Repr

/-- The six-entry scores dictionary returned by `_calculate_confidence_scores`.
The Python float constants are modelled as exact rationals. -/
structure ConfidenceScores where
  overall_confidence : ℚ
  key_points_confidence : ℚ
  sentiment_confidence : ℚ
  stakeholder_confidence : ℚ
  theme_confidence : ℚ
  impact_confidence : ℚ
deriving DecidableEq, Repr

/-! ## CorpusBuilder: `_prepare_comment_data` -/

/-- Embeds `GPTOSSAnalyzer._prepare_comment_data`.  The Python loop appends to
`comment_texts`, `stakeholder_info` and `dates` only under the truthiness
guards `if comment.comment_text:` and `if comment.posted_date:`, and sets
`total_comments` to the length of the unfiltered input. -/
def prepare_comment_data (comments : List RegulationsComment) : Corpus :=
  let kept := comments.filter (fun c => c.comment_text ≠ "")
  { texts := kept.map (fun c => c.comment_text)
  , stakeholders := kept.map (fun c =>
      { name := pyOrStr c.submitter_name c.organization_name
      , type := if isTruthyStr c.organization_name then "organization" else "individual"
      , organization := c.organization_name })
  , dates := (kept.filter (fun c => c.posted_date ≠ "")).map (fun c => c.posted_date)
  , total_comments := comments.length }

/-! ## ConfidenceScorer: `_calculate_confidence_scores` -/

/-- Embeds `GPTOSSAnalyzer._calculate_confidence_scores`.  The Python function
also receives the basic analysis, the theme list and the impact list; it reads
none of them, which the claims make observable, so they stay as parameters. -/
def calculate_confidence_scores (comment_data : Corpus) (basic_analysis : BasicAnalysis)
    (regulatory_themes : List Theme) (impact_assessments : List ImpactAssessment) :
    ConfidenceScores :=
  let total_comments := comment_data.total_comments
  let base_confidence : ℚ :=
    if total_comments ≥ 20 then 4/5
    else if total_comments ≥ 10 then 3/5
    else if total_comments ≥ 5 then 2/5
    else 1/5
  { overall_confidence := base_confidence
  , key_points_confidence := min (base_confidence + 1/10) 1
  , sentiment_confidence := base_confidence
  , stakeholder_confidence := min (base_confidence + 1/20) 1
  , theme_confidence := min (base_confidence + 3/20) 1
  , impact_confidence := min (base_confidence + 1/10) 1 }

/-- Written from the wording of the spec, section 4.3: base confidence by
corpus-size tier, per-dimension confidence is base plus a fixed offset
(key points +0.1, stakeholder +0.05, theme +0.15, impact +0.1, sentiment +0),
each clamped to at most 1, as a function of the total alone. -/
def spec_confidence_vector (total : Nat) : ConfidenceScores :=
  let base : ℚ :=
    if total ≥ 20 then 4/5
    else if total ≥ 10 then 3/5
    else if total ≥ 5 then 2/5
    else 1/5
  { overall_confidence := base
  , key_points_confidence := min (base + 1/10) 1
  , sentiment_confidence := base + 0
  , stakeholder_confidence := min (base + 1/20) 1
  , theme_confidence := min (base + 3/20) 1
  , impact_confidence := min (base + 1/10) 1 }

/-! ## Theme detection: `_identify_regulatory_themes` -/

/-- The `theme_patterns` table, in source order. -/
def theme_patterns : List (String × List String) :=
  [ ("compliance_burden",
      ["compliance", "burden", "administrative", "paperwork", "reporting",
       "recordkeeping", "monitoring", "certification"])
  , ("economic_impact",
      ["cost", "economic", "financial", "budget", "expense", "investment",
       "revenue", "profit", "market", "competition"])
  , ("environmental_concerns",
      ["environment", "pollution", "emissions", "waste", "conservation",
       "sustainability", "climate", "greenhouse", "carbon"])
  , ("safety_health",
      ["safety", "health", "risk", "hazard", "protection", "injury",
       "illness", "exposure", "toxic", "dangerous"])
  , ("implementation_timeline",
      ["timeline", "deadline", "implementation", "effective date",
       "phase", "transition", "grace period", "compliance date"])
  , ("technical_standards",
      ["standard", "specification", "requirement", "criteria",
       "methodology", "procedure", "protocol", "guideline"]) ]

/-- The lower-cased space-joined corpus text `' '.join(texts).lower()`. -/
def corpusAllText (texts : List String) : String :=
  pyLower (String.intercalate " " texts)

/-- One iteration of the theme loop: build the theme dictionary for one table
entry when its keyword frequency is positive. -/
def mkTheme (texts : List String) (all_text : String) (p : String × List String) :
    Option Theme :=
  let frequency := (p.2.map (fun kw => countOcc kw.data all_text.data)).sum
  if frequency > 0 then
    some { theme := p.1
         , frequency := frequency
         , keywords_found := p.2.filter (fun kw => pyContains kw all_text)
         , relevance_score := min ((frequency : ℚ) / (texts.length : ℚ)) 1 }
  else none

/-- Stable descending insertion by a rational key: an element is placed after
every earlier element with a strictly greater key and before the rest, which
reproduces the output of the stable Python `list.sort(key=..., reverse=True)`. -/
def insertDescBy {α : Type} (key : α → ℚ) (x : α) : List α → List α
  | [] => [x]
  | y :: ys => if key x < key y then y :: insertDescBy key x ys else x :: y :: ys

/-- Stable descending sort by a rational key (see `insertDescBy`). -/
def sortDescBy {α : Type} (key : α → ℚ) : List α → List α
  | [] => []
  | x :: xs => insertDescBy key x (sortDescBy key xs)

/-- Embeds `GPTOSSAnalyzer._identify_regulatory_themes`. -/
def identify_regulatory_themes (comment_data : Corpus) : List Theme :=
  let texts := comment_data.texts
  let all_text := corpusAllText texts
  let themes := theme_patterns.filterMap (mkTheme texts all_text)
  (sortDescBy (fun t => t.relevance_score) themes).take 5

/-! ## Impact assessment: `_assess_regulatory_impacts` -/

/-- The `impact_categories` table, in source order. -/
def impact_categories : List (String × List String) :=
  [ ("industry_impact",
      ["industry", "business", "company", "firm", "sector", "market",
       "competition", "innovation", "investment"])
  , ("consumer_impact",
      ["consumer", "customer", "public", "user", "end user", "buyer",
       "purchaser", "beneficiary"])
  , ("government_impact",
      ["government", "agency", "federal", "state", "local", "regulatory",
       "enforcement", "oversight", "compliance"])
  , ("environmental_impact",
      ["environment", "ecosystem", "natural", "wildlife", "habitat",
       "biodiversity", "conservation"]) ]

/-- Embeds `GPTOSSAnalyzer._assess_regulatory_impacts`: per category, count the
comments whose lower-cased text contains any keyword, keeping their indices. -/
def assess_regulatory_impacts (comment_data : Corpus) : List ImpactAssessment :=
  let texts := comment_data.texts
  impact_categories.filterMap (fun p =>
    let relevant_comments :=
      (texts.enum.filter (fun it => p.2.any (fun kw => pyContains kw (pyLower it.2)))).map
        Prod.fst
    let mentions := relevant_comments.length
    if mentions > 0 then
      some { impact_type := p.1
           , mention_count := mentions
           , affected_comments := relevant_comments
           , impact_score := (mentions : ℚ) / (texts.length : ℚ) }
    else none)

/-! ## Sentiment and perspectives: `_analyze_sentiment`, `_identify_perspectives` -/

/-- Aggregate occurrence count of a word bucket over the whole corpus text. -/
def bucketCount (words : List String) (all_text : String) : Nat :=
  (words.map (fun w => countOcc w.data all_text.data)).sum

/-- The `positive_words` bucket of `_analyze_sentiment`. -/
def positive_words : List String :=
  ["support", "agree", "beneficial", "good", "effective", "necessary", "important", "valuable"]

/-- The `negative_words` bucket of `_analyze_sentiment`. -/
def negative_words : List String :=
  ["oppose", "concern", "problem", "burden", "costly", "unnecessary", "harmful", "difficult"]

/-- Embeds `GPTOSSAnalyzer._analyze_sentiment`.  The comparisons
`positive_count > negative_count * 1.5` are exact on these small integers, so
the float arithmetic is modelled as rational arithmetic. -/
def analyze_sentiment (texts : List String) : String :=
  let all_text := corpusAllText texts
  let positive_count := bucketCount positive_words all_text
  let negative_count := bucketCount negative_words all_text
  if (positive_count : ℚ) > (negative_count : ℚ) * (3/2) then
    "Predominantly positive sentiment"
  else if (negative_count : ℚ) > (positive_count : ℚ) * (3/2) then
    "Predominantly negative sentiment"
  else
    "Mixed sentiment with both support and concerns"

/-- The `support_words` bucket of `_identify_perspectives`. -/
def support_words : List String :=
  ["support", "agree", "beneficial", "good", "effective", "necessary", "important"]

/-- The `opposition_words` bucket of `_identify_perspectives`. -/
def opposition_words : List String :=
  ["oppose", "concern", "problem", "burden", "costly", "unnecessary", "harmful"]

/-- The `constructive_words` bucket of `_identify_perspectives`. -/
def constructive_words : List String :=
  ["suggest", "recommend", "propose", "modify", "improve", "clarify"]

/-- Embeds `GPTOSSAnalyzer._identify_perspectives`. -/
def identify_perspectives (texts : List String) : List String :=
  let all_text := corpusAllText texts
  let support_count := bucketCount support_words all_text
  let opposition_count := bucketCount opposition_words all_text
  let constructive_count := bucketCount constructive_words all_text
  let first :=
    if (support_count : ℚ) > (opposition_count : ℚ) * (3/2) then
      "Generally supportive of the proposed regulation"
    else if (opposition_count : ℚ) > (support_count : ℚ) * (3/2) then
      "Generally concerned about the proposed regulation"
    else
      "Mixed perspectives with both support and concerns"
  if constructive_count > 0 then
    [first, "Many comments provide constructive suggestions for improvement"]
  else [first]

/-! ## Key points: `_extract_key_points` -/

/-- The weighted `key_terms` table, in source order. -/
def key_terms : List (String × Nat) :=
  [ ("compliance", 3), ("cost", 3), ("burden", 2), ("impact", 2), ("implementation", 2)
  , ("safety", 2), ("environment", 2), ("economic", 2), ("technical", 2), ("timeline", 2)
  , ("standard", 1), ("requirement", 1), ("regulation", 1), ("enforcement", 1) ]

/-- Embeds `GPTOSSAnalyzer._extract_key_points`.  Note the source interpolates
the weighted score, not the raw count, into the message. -/
def extract_key_points (texts : List String) : List String :=
  let all_text := corpusAllText texts
  let term_scores := key_terms.filterMap (fun p =>
    let count := countOcc p.1.data all_text.data
    if count > 0 then some (p.1, count * p.2) else none)
  let sorted_terms := sortDescBy (fun q => ((q.2 : ℚ))) term_scores
  (sorted_terms.take 5).map (fun q =>
    "\x27" ++ q.1 ++ "\x27 mentioned " ++ toString q.2 ++ " times across comments")

/-! ## Stakeholder categorization: `_categorize_stakeholders` -/

/-- Embeds `GPTOSSAnalyzer._categorize_stakeholders`.  `Counter.most_common()`
orders by descending count with ties in first-insertion order, which the
stable descending sort over first-occurrence-ordered distinct keys reproduces. -/
def categorize_stakeholders (stakeholders : List StakeholderInfo) : List String :=
  let typesList := stakeholders.map (fun s => s.type)
  let counted := (dedupFirst typesList).map (fun t =>
    (t, (typesList.filter (fun x => x = t)).length))
  let ordered := sortDescBy (fun q => ((q.2 : ℚ))) counted
  ordered.map (fun q => pyTitle q.1 ++ "s (" ++ toString q.2 ++ ")")

/-! ## Stakeholder concerns: `_analyze_stakeholder_concerns` -/

/-- The `concern_patterns` table, in source order. -/
def concern_patterns : List (String × List String) :=
  [ ("cost_concerns", ["expensive", "costly", "burden", "financial impact"])
  , ("timeline_concerns", ["too fast", "too slow", "deadline", "timeline"])
  , ("complexity_concerns", ["complex", "complicated", "confusing", "unclear"])
  , ("feasibility_concerns", ["impossible", "unrealistic", "impractical", "feasible"]) ]

/-- The concern string template of `_analyze_stakeholder_concerns`:
title-cased concern type, colon, first 100 characters of the text, ellipsis. -/
def concernText (concern_type : String) (text : String) : String :=
  pyTitle (pyReplaceUnderscore concern_type) ++ ": " ++ String.mk (text.data.take 100) ++ "..."

/-- Embeds `GPTOSSAnalyzer._analyze_stakeholder_concerns`: per comment and per
concern pattern, a matching comment is routed into the organizations or
individuals bucket by stakeholder type, and into `common` with exact-string
deduplication. -/
def analyze_stakeholder_concerns (comment_data : Corpus) : StakeholderConcerns :=
  let pairs := comment_data.texts.zip comment_data.stakeholders
  pairs.foldl
    (fun acc ts =>
      concern_patterns.foldl
        (fun acc2 p =>
          if p.2.any (fun kw => pyContains kw (pyLower ts.1)) then
            let ct := concernText p.1 ts.1
            let acc3 :=
              if ts.2.type = "organization" then
                { acc2 with organizations := acc2.organizations ++ [ct] }
              else
                { acc2 with individuals := acc2.individuals ++ [ct] }
            if acc3.common.contains ct then acc3
            else { acc3 with common := acc3.common ++ [ct] }
          else acc2)
        acc)
    { organizations := [], individuals := [], common := [] }

/-! ## Recommendation extraction: `_extract_recommendations`

The ten regex patterns all have the form of literal lowercase words joined by
a backslash-s-plus gap, with one trailing-gap pattern.  They are embedded as
word lists plus a trailing-gap flag, with `rawPatternStr` rebuilding the exact
raw pattern text (which contains no literal whitespace, so Python
`pattern.split()` returns the one-element list holding the raw pattern). -/

/-- One recommendation regex: literal words separated by a whitespace-run gap,
optionally requiring a trailing whitespace character. -/
structure RecPattern where
  words : List String
  trailingGap : Bool
deriving DecidableEq, Repr

/-- The `recommendation_patterns` list, in source order. -/
def recommendation_patterns : List RecPattern :=
  [ ⟨["recommend", "that"], false⟩
  , ⟨["suggest", "that"], false⟩
  , ⟨["propose", "that"], false⟩
  , ⟨["urge", "that"], false⟩
  , ⟨["request", "that"], false⟩
  , ⟨["should", "be"], false⟩
  , ⟨["would", "be", "better"], false⟩
  , ⟨["consider"], true⟩
  , ⟨["we", "recommend"], false⟩
  , ⟨["we", "suggest"], false⟩ ]

/-- The raw regex source text of a pattern, e.g. `recommend\s+that`. -/
def rawPatternStr (p : RecPattern) : String :=
  String.intercalate "\\s+" p.words ++ (if p.trailingGap then "\\s+" else "")

/-- Does the pattern match at the head of `s`?  Each gap consumes one or more
whitespace characters (greedy consumption is complete here because every word
starts with a non-whitespace character). -/
def matchWordsAt : List String → Bool → List Char → Bool
  | [], trailing, s =>
    if trailing then (match s with | c :: _ => c.isWhitespace | [] => false) else true
  | w :: rest, trailing, s =>
    if w.data.isPrefixOf s then
      let s1 := s.drop w.data.length
      match rest with
      | [] =>
        if trailing then (match s1 with | c :: _ => c.isWhitespace | [] => false) else true
      | _ :: _ =>
        let s2 := s1.dropWhile Char.isWhitespace
        decide (s2.length < s1.length) && matchWordsAt rest trailing s2
    else false

/-- Python `re.findall(pattern, s)` nonemptiness for the recommendation
patterns: does the pattern match anywhere in `s`? -/
def regexMatchesAux (p : RecPattern) : List Char → Bool
  | [] => matchWordsAt p.words p.trailingGap []
  | c :: rest => matchWordsAt p.words p.trailingGap (c :: rest) || regexMatchesAux p rest

/-- Pattern match anywhere in a string. -/
def regexMatches (p : RecPattern) (s : String) : Bool :=
  regexMatchesAux p s.data

/-- The inner sentence loop of `_extract_recommendations`: strip and keep the
first sentence whose lower-cased text contains any of `patternWords` (in the
source those are the whitespace-split pieces of the raw regex text). -/
def firstMatchingSentence (patternWords : List String) : List String → Option String
  | [] => none
  | sentence :: rest =>
    if patternWords.any (fun w => pyContains w (pyLower sentence)) then
      some (pyStrip sentence)
    else firstMatchingSentence patternWords rest

/-- Embeds `GPTOSSAnalyzer._extract_recommendations`.  For each text and each
pattern with a regex match in the lower-cased text, one sentence is appended
when found; the result is deduplicated (`list(set(...))`, see `dedupFirst`)
and capped to 10. -/
def extract_recommendations (comment_data : Corpus) : List String :=
  let recommendations :=
    (comment_data.texts.map (fun text =>
      recommendation_patterns.filterMap (fun p =>
        if regexMatches p (pyLower text) then
          firstMatchingSentence (pySplitWs (rawPatternStr p)) (sentenceSplit text)
        else none))).flatten
  (dedupFirst recommendations).take 10

/-! ## Issue extractors: technical, economic, timeline, implementation -/

/-- The shared shape of the four sentence-level issue extractors: texts whose
lower-cased form contains a keyword contribute every matching sentence,
stripped; the collection is deduplicated and capped to 5. -/
def sentence_issue_extractor (keywords : List String) (texts : List String) : List String :=
  let collected :=
    (texts.map (fun text =>
      if keywords.any (fun kw => pyContains kw (pyLower text)) then
        (sentenceSplit text).filterMap (fun sentence =>
          if keywords.any (fun kw => pyContains kw (pyLower sentence)) then
            some (pyStrip sentence)
          else none)
      else [])).flatten
  (dedupFirst collected).take 5

/-- The `technical_keywords` list of `_identify_technical_issues`. -/
def technical_keywords : List String :=
  ["technical", "technology", "methodology", "standard", "specification",
   "measurement", "testing", "validation", "calibration", "accuracy",
   "precision", "reliability", "interoperability", "compatibility"]

/-- The `economic_keywords` list of `_identify_economic_concerns`. -/
def economic_keywords : List String :=
  ["cost", "price", "economic", "financial", "budget", "expense",
   "investment", "revenue", "profit", "loss", "market", "competition",
   "efficiency", "productivity", "employment", "jobs"]

/-- The `timeline_keywords` list of `_identify_timeline_concerns`. -/
def timeline_keywords : List String :=
  ["timeline", "deadline", "schedule", "implementation", "effective date",
   "compliance date", "phase", "transition", "grace period", "timeframe",
   "too fast", "too slow", "rushed", "delayed", "extended"]

/-- The `challenge_keywords` list of `_identify_implementation_challenges`. -/
def challenge_keywords : List String :=
  ["challenge", "barrier", "obstacle", "difficulty", "problem",
   "issue", "concern", "limitation", "constraint", "burden",
   "complex", "complicated", "unclear", "confusing", "impractical"]

/-! ## Summary synthesis: `_generate_comprehensive_summary` -/

/-- Python `max(impacts, key=lambda x: x.impact_score)`: first maximum wins ties. -/
def maxByImpactScore : List ImpactAssessment → Option ImpactAssessment
  | [] => none
  | x :: xs =>
    some (xs.foldl (fun best y => if y.impact_score > best.impact_score then y else best) x)

/-- Embeds `GPTOSSAnalyzer._generate_comprehensive_summary`. -/
def generate_comprehensive_summary (basic : BasicAnalysis) (themes : List Theme)
    (impacts : List ImpactAssessment) (concerns : StakeholderConcerns)
    (total_comments : Nat) : String :=
  let parts0 := ["Analysis of " ++ toString total_comments ++ " public comments reveals:",
                 "Overall sentiment: " ++ basic.sentiment]
  let parts1 :=
    if basic.perspectives ≠ [] then
      parts0 ++ ["Common perspectives: " ++ String.intercalate "; " basic.perspectives]
    else parts0
  let parts2 :=
    match themes with
    | top :: _ =>
      parts1 ++ ["Primary regulatory theme: " ++ top.theme ++ " (mentioned " ++
                 toString top.frequency ++ " times)"]
    | [] => parts1
  let parts3 :=
    match maxByImpactScore impacts with
    | some top =>
      parts2 ++ ["Main impact area: " ++ top.impact_type ++ " (mentioned in " ++
                 toString top.mention_count ++ " comments)"]
    | none => parts2
  let parts4 :=
    if concerns.common ≠ [] then
      parts3 ++ ["Common concerns identified: " ++ toString concerns.common.length ++
                 " distinct issues"]
    else parts3
  String.intercalate " " parts4

/-! ## Full pipeline: `analyze_comments_advanced` -/

/-- The `AdvancedCommentAnalysis` dataclass of `ai_comment_analyzer.py`. -/
structure AdvancedCommentAnalysis where
  key_points : List String
  common_perspectives : List String
  sentiment_summary : String
  stakeholder_types : List String
  summary : String
  total_comments_analyzed : Nat
  regulatory_themes : List Theme
  impact_assessments : List ImpactAssessment
  stakeholder_concerns : StakeholderConcerns
  recommendation_patterns : List String
  technical_issues : List String
  economic_concerns : List String
  timeline_concerns : List String
  implementation_challenges : List String
  analysis_timestamp : String
  confidence_scores : ConfidenceScores
deriving DecidableEq, Repr

/-- Embeds `GPTOSSAnalyzer.analyze_comments_advanced`.  `datetime.now()` is an
external input and is passed in as the `now` parameter; `document_id` is only
logged by the source and is kept as an (unused) parameter. -/
def analyze_comments_advanced (comments : List RegulationsComment) (document_id : String)
    (now : String) : AdvancedCommentAnalysis :=
  let comment_data := prepare_comment_data comments
  let basic_analysis : BasicAnalysis :=
    { key_points := extract_key_points comment_data.texts
    , perspectives := identify_perspectives comment_data.texts
    , sentiment := analyze_sentiment comment_data.texts
    , stakeholder_types := categorize_stakeholders comment_data.stakeholders }
  let regulatory_themes := identify_regulatory_themes comment_data
  let impact_assessments := assess_regulatory_impacts comment_data
  let stakeholder_concerns := analyze_stakeholder_concerns comment_data
  let recommendation_patterns := extract_recommendations comment_data
  let confidence_scores :=
    calculate_confidence_scores comment_data basic_analysis regulatory_themes impact_assessments
  let summary :=
    generate_comprehensive_summary basic_analysis regulatory_themes impact_assessments
      stakeholder_concerns comments.length
  { key_points := basic_analysis.key_points
  , common_perspectives := basic_analysis.perspectives
  , sentiment_summary := basic_analysis.sentiment
  , stakeholder_types := basic_analysis.stakeholder_types
  , summary := summary
  , total_comments_analyzed := comments.length
  , regulatory_themes := regulatory_themes
  , impact_assessments := impact_assessments
  , stakeholder_concerns := stakeholder_concerns
  , recommendation_patterns := recommendation_patterns
  , technical_issues := sentence_issue_extractor technical_keywords comment_data.texts
  , economic_concerns := sentence_issue_extractor economic_keywords comment_data.texts
  , timeline_concerns := sentence_issue_extractor timeline_keywords comment_data.texts
  , implementation_challenges := sentence_issue_extractor challenge_keywords comment_data.texts
  , analysis_timestamp := now
  , confidence_scores := confidence_scores }

/-! ## Tool layer: `gpt_oss_tools.py`

The analysis dictionaries passed around the tool layer are plain Python dicts
whose key sets differ between code paths; they are embedded as a structure of
optional fields where `none` means the key is absent from the dict. -/

/-- The `comprehensive_metadata` attribute attached by `_perform_comprehensive_analysis`. -/
structure ComprehensiveMetadata where
  analysis_version : String
  features_used : List String
  data_quality_score : ℚ
  analysis_confidence : ℚ
deriving DecidableEq, Repr

/-- An analysis dictionary as it flows through `gpt_oss_tools.py`.  A field
holding `none` models a key that is absent from the Python dict. -/
structure AnalysisDict where
  total_comments_analyzed : Nat
  key_points : List String
  common_perspectives : List String
  sentiment_summary : String
  stakeholder_types : List String
  summary : String
  regulatory_themes : Option (List Theme) := none
  impact_assessments : Option (List ImpactAssessment) := none
  stakeholder_concerns : Option StakeholderConcerns := none
  recommendation_patterns : Option (List String) := none
  technical_issues : Option (List String) := none
  economic_concerns : Option (List String) := none
  timeline_concerns : Option (List String) := none
  implementation_challenges : Option (List String) := none
  analysis_timestamp : Option String := none
  confidence_scores : Option ConfidenceScores := none
  comprehensive_metadata : Option ComprehensiveMetadata := none
deriving DecidableEq, Repr

/-- Conversion of an `AdvancedCommentAnalysis` instance to its `__dict__` view:
every dataclass field is present. -/
def advancedToDict (a : AdvancedCommentAnalysis) : AnalysisDict :=
  { total_comments_analyzed := a.total_comments_analyzed
  , key_points := a.key_points
  , common_perspectives := a.common_perspectives
  , sentiment_summary := a.sentiment_summary
  , stakeholder_types := a.stakeholder_types
  , summary := a.summary
  , regulatory_themes := some a.regulatory_themes
  , impact_assessments := some a.impact_assessments
  , stakeholder_concerns := some a.stakeholder_concerns
  , recommendation_patterns := some a.recommendation_patterns
  , technical_issues := some a.technical_issues
  , economic_concerns := some a.economic_concerns
  , timeline_concerns := some a.timeline_concerns
  , implementation_challenges := some a.implementation_challenges
  , analysis_timestamp := some a.analysis_timestamp
  , confidence_scores := some a.confidence_scores }

/-- Per-comment completeness score of `_calculate_data_quality_score`. -/
def commentQuality (c : RegulationsComment) : ℚ :=
  (if c.comment_text ≠ "" ∧ c.comment_text.length > 50 then 2/5 else 0) +
  (if isTruthyStr (pyOrStr c.submitter_name c.organization_name) then 3/10 else 0) +
  (if c.posted_date ≠ "" then 1/5 else 0) +
  (if isTruthyStr c.title then 1/10 else 0)

/-- Embeds `GPTOSSToolInterface._calculate_data_quality_score`. -/
def calculate_data_quality_score (comments : List RegulationsComment) : ℚ :=
  if comments.isEmpty then 0
  else (comments.map commentQuality).sum / (comments.length : ℚ)

/-- The simplified dictionary returned by `GPTOSSToolInterface._perform_basic_analysis`
on its happy path (the source runs the advanced analyzer under the document id
`"basic_analysis"` and keeps six keys). -/
def basicAnalysisDict (comments : List RegulationsComment) (now : String) : AnalysisDict :=
  let analysis := analyze_comments_advanced comments "basic_analysis" now
  { total_comments_analyzed := analysis.total_comments_analyzed
  , key_points := analysis.key_points
  , common_perspectives := analysis.common_perspectives
  , sentiment_summary := analysis.sentiment_summary
  , stakeholder_types := analysis.stakeholder_types
  , summary := analysis.summary }

/-- The dictionary produced by `_perform_comprehensive_analysis`: the advanced
analysis plus the `comprehensive_metadata` attribute. -/
def comprehensiveDict (comments : List RegulationsComment) (document_id now : String) :
    AnalysisDict :=
  let a := analyze_comments_advanced comments document_id now
  { advancedToDict a with
      comprehensive_metadata := some
        { analysis_version := "1.0"
        , features_used := ["sentiment", "themes", "impacts", "stakeholders", "recommendations"]
        , data_quality_score := calculate_data_quality_score comments
        , analysis_confidence := a.confidence_scores.overall_confidence } }

/-- The envelope dictionary returned by `GPTOSSToolInterface._analyze_regulatory_comments`.
`none` models an absent key. -/
structure AnalyzeEnvelope where
  success : Bool
  document_id : String
  message : Option String := none
  analysis_depth : Option String := none
  total_comments_found : Option Nat := none
  analysis : Option AnalysisDict := none
  timestamp : Option String := none
  error : Option String := none
deriving DecidableEq, Repr

/-- Embeds `GPTOSSToolInterface._analyze_regulatory_comments` after the fetch:
the list returned by `fetch_comments_by_document_id` (an excluded I/O adapter)
is the `comments` parameter, and `datetime.now().isoformat()` is `now`.  With
zero comments the source returns its fixed minimal envelope before any
analysis runs; otherwise it analyzes at the requested depth. -/
def analyze_regulatory_comments_tool (document_id : String)
    (comments : List RegulationsComment) (analysis_depth : String) (now : String) :
    AnalyzeEnvelope :=
  if comments.isEmpty then
    { success := true
    , document_id := document_id
    , message := some "No comments found for this document"
    , analysis := some
        { total_comments_analyzed := 0
        , key_points := []
        , common_perspectives := []
        , sentiment_summary := "No comments available for analysis"
        , stakeholder_types := []
        , summary := "No public comments were found for this document." } }
  else
    let analysis_dict :=
      if analysis_depth = "basic" then basicAnalysisDict comments now
      else if analysis_depth = "advanced" then
        advancedToDict (analyze_comments_advanced comments document_id now)
      else comprehensiveDict comments document_id now
    { success := true
    , document_id := document_id
    , analysis_depth := some analysis_depth
    , total_comments_found := some comments.length
    , analysis := some analysis_dict
    , timestamp := some now }

/-! ## Comment count: `regulations_gov_api.get_document_comment_count` and
`GPTOSSToolInterface._get_comment_count` -/

/-- Embeds `RegulationsGovAPI.get_document_object_id`: the underlying request
either raises (caught, yielding `None`) or yields an optional object id. -/
def get_document_object_id (fetchDoc : Except String (Option String)) : Option String :=
  match fetchDoc with
  | .ok v => v
  | .error _ => none

/-- Embeds `RegulationsGovAPI.get_document_comment_count`.  `fetchDoc` models
the document lookup and `fetchCount` the comment-list request, whose payload
is `meta.totalElements` when present.  Every failure path of the source is
caught inside the function and yields `0`. -/
def get_document_comment_count (fetchDoc : Except String (Option String))
    (fetchCount : Except String (Option Nat)) : Nat :=
  match get_document_object_id fetchDoc with
  | none => 0
  | some _ =>
    match fetchCount with
    | .ok (some n) => n
    | .ok none => 0
    | .error _ => 0

/-- The envelope returned by `GPTOSSToolInterface._get_comment_count`. -/
structure CountEnvelope where
  success : Bool
  document_id : String
  comment_count : Option Nat := none
  timestamp : Option String := none
  error : Option String := none
deriving DecidableEq, Repr

/-- Embeds `GPTOSSToolInterface._get_comment_count`: the call to
`get_document_comment_count` sits inside a try/except, so it is modelled as an
`Except` value; a raised exception becomes the failure envelope. -/
def get_comment_count_tool (document_id : String) (countCall : Except String Nat)
    (now : String) : CountEnvelope :=
  match countCall with
  | .ok count =>
    { success := true, document_id := document_id, comment_count := some count
    , timestamp := some now }
  | .error e =>
    { success := false, document_id := document_id, error := some e }

/-! ## Tool dispatch: `get_tool_definitions` and `execute_tool` -/

/-- One entry of `get_tool_definitions`.  The static JSON parameter schemas of
the source are data used by no claim and are elided here; the names and
descriptions are verbatim. -/
structure ToolDefinition where
  name : String
  description : String
deriving DecidableEq, Repr

/-- Embeds `GPTOSSToolInterface.get_tool_definitions`, in source order. -/
def get_tool_definitions : List ToolDefinition :=
  [ { name := "analyze_regulatory_comments"
    , description := "Analyze public comments on a regulatory document using AI to extract key points, common perspectives, and stakeholder concerns" }
  , { name := "get_comment_count"
    , description := "Get the total number of public comments on a regulatory document" }
  , { name := "synthesize_comment_insights"
    , description := "Synthesize key insights from comment analysis for executive summary" }
  , { name := "identify_regulatory_themes"
    , description := "Identify and categorize key regulatory themes from comment analysis" }
  , { name := "assess_stakeholder_concerns"
    , description := "Assess and categorize stakeholder concerns by type and frequency" }
  , { name := "test_api_connection"
    , description := "Test the connection to regulations.gov API" } ]

/-- The dictionary returned by `execute_tool`: either the result dictionary of
the executing tool passed through unchanged, the fixed unknown-tool envelope,
or the envelope built by the dispatch-level exception handler. -/
inductive DispatchResult (α : Type) where
  | payload (v : α)
  | unknownTool (success : Bool) (error : String) (available_tools : List String)
  | caught (success : Bool) (error : String) (tool : String)
deriving DecidableEq, Repr

/-- Embeds `GPTOSSToolInterface.execute_tool`.  `run name` models the call of
the matched handler with the given parameters (any exception it raises,
including a `TypeError` from parameter unpacking, is the `.error` case); the
result type of the handlers is abstract because each handler returns its own
dictionary shape. -/
def execute_tool {α : Type} (tool_name : String) (run : String → Except String α) :
    DispatchResult α :=
  let dispatched : Option (Except String α) :=
    if tool_name = "analyze_regulatory_comments" then some (run tool_name)
    else if tool_name = "get_comment_count" then some (run tool_name)
    else if tool_name = "synthesize_comment_insights" then some (run tool_name)
    else if tool_name = "identify_regulatory_themes" then some (run tool_name)
    else if tool_name = "assess_stakeholder_concerns" then some (run tool_name)
    else if tool_name = "test_api_connection" then some (run tool_name)
    else none
  match dispatched with
  | some (.ok v) => .payload v
  | some (.error e) => .caught false e tool_name
  | none =>
    .unknownTool false ("Unknown tool: " ++ tool_name)
      (get_tool_definitions.map (fun d => d.name))

/-- The six registered tool names, in source order. -/
def registered_tool_names : List String :=
  ["analyze_regulatory_comments", "get_comment_count", "synthesize_comment_insights",
   "identify_regulatory_themes", "assess_stakeholder_concerns", "test_api_connection"]

/-! ## LLM bridge response parsing: `ollama_comment_analyzer._parse_analysis_response`

The parser needs a model of `json.loads`.  `JVal` is the JSON value universe
(numbers as exact rationals) and `json_loads` is a small recursive-descent
parser covering objects, arrays, strings with the common escapes, booleans,
null and decimal numbers without exponents; like `json.loads`, it raises (an
`Except.error` with a nonempty message) on malformed input and on trailing
data.  This covers every shape the analyzed code paths feed it. -/

/-- JSON values.  Python dicts are association lists in insertion order. -/
inductive JVal where
  | null : JVal
  | bool (b : Bool) : JVal
  | num (q : ℚ) : JVal
  | str (s : String) : JVal
  | arr (elems : List JVal) : JVal
  | obj (fields : List (String × JVal)) : JVal

/-- Key lookup in a JSON object; `none` for a missing key or a non-object. -/
def jlookup (key : String) : JVal → Option JVal
  | .obj fields => fields.lookup key
  | _ => none

/-- Parse a JSON string body after the opening quote, returning the string and
the remaining input. -/
def parseStringBody : List Char → Except String (String × List Char)
  | [] => .error "Unterminated string"
  | c :: rest =>
    if c = '"' then .ok ("", rest)
    else if c = '\\' then
      match rest with
      | [] => .error "Unterminated string escape"
      | e :: rest2 =>
        let esc : Except String Char :=
          if e = '"' then .ok '"'
          else if e = '\\' then .ok '\\'
          else if e = '/' then .ok '/'
          else if e = 'n' then .ok '\n'
          else if e = 't' then .ok '\t'
          else if e = 'r' then .ok '\r'
          else .error "Invalid string escape"
        match esc with
        | .error m => .error m
        | .ok ch =>
          match parseStringBody rest2 with
          | .error m => .error m
          | .ok (s, r) => .ok (String.mk (ch :: s.data), r)
    else
      match parseStringBody rest with
      | .error m => .error m
      | .ok (s, r) => .ok (String.mk (c :: s.data), r)

/-- Digits at the head of the input as a natural number. -/
def parseDigits (s : List Char) : Option (Nat × List Char) :=
  let ds := s.takeWhile Char.isDigit
  if ds.isEmpty then none
  else some (ds.foldl (fun acc c => acc * 10 + (c.toNat - 48)) 0, s.drop ds.length)

/-- Parse a decimal JSON number (optional minus sign, integer part, optional
fraction part; exponents are not used by the analyzed code and are rejected). -/
def parseNumber (s : List Char) : Except String (ℚ × List Char) :=
  let (neg, s1) : Bool × List Char :=
    match s with
    | '-' :: rest => (true, rest)
    | _ => (false, s)
  match parseDigits s1 with
  | none => .error "Expecting value"
  | some (intPart, s2) =>
    let (q, s3) : ℚ × List Char :=
      match s2 with
      | '.' :: rest =>
        match parseDigits rest with
        | some (fracPart, r) =>
          let digits := rest.takeWhile Char.isDigit
          ((intPart : ℚ) + (fracPart : ℚ) / ((10 : ℚ) ^ digits.length), r)
        | none => ((intPart : ℚ), s2)
      | _ => ((intPart : ℚ), s2)
    .ok (if neg then -q else q, s3)

/-- Leading JSON whitespace removal. -/
def skipWs (s : List Char) : List Char :=
  s.dropWhile Char.isWhitespace

mutual

/-- Fuel-indexed JSON value parser. -/
def parseVal : Nat → List Char → Except String (JVal × List Char)
  | 0, _ => .error "Value nesting too deep"
  | fuel + 1, s =>
    match skipWs s with
    | [] => .error "Expecting value"
    | c :: rest =>
      if c = '"' then
        match parseStringBody rest with
        | .error m => .error m
        | .ok (str, r) => .ok (.str str, r)
      else if c = '\x7b' then parseObjFields fuel (skipWs rest) true
      else if c = '[' then parseArrElems fuel (skipWs rest) true
      else if ['t', 'r', 'u', 'e'].isPrefixOf (c :: rest) then
        .ok (.bool true, (c :: rest).drop 4)
      else if ['f', 'a', 'l', 's', 'e'].isPrefixOf (c :: rest) then
        .ok (.bool false, (c :: rest).drop 5)
      else if ['n', 'u', 'l', 'l'].isPrefixOf (c :: rest) then
        .ok (.null, (c :: rest).drop 4)
      else if c.isDigit ∨ c = '-' then
        match parseNumber (c :: rest) with
        | .error m => .error m
        | .ok (q, r) => .ok (.num q, r)
      else .error "Expecting value"

/-- Object fields after the opening brace (whitespace already skipped);
`first` is true before the first field. -/
def parseObjFields : Nat → List Char → Bool → Except String (JVal × List Char)
  | 0, _, _ => .error "Value nesting too deep"
  | _ + 1, [], _ => .error "Unterminated object"
  | fuel + 1, c :: rest, first =>
    if c = '\x7d' then .ok (.obj [], rest)
    else if c = '"' then
      match parseStringBody rest with
      | .error m => .error m
      | .ok (key, r1) =>
        match skipWs r1 with
        | ':' :: r2 =>
          match parseVal fuel r2 with
          | .error m => .error m
          | .ok (v, r3) =>
            match skipWs r3 with
            | ',' :: r4 =>
              (match parseObjFields fuel (skipWs r4) false with
               | .error m => .error m
               | .ok (.obj fields, r5) => .ok (.obj ((key, v) :: fields), r5)
               | .ok _ => .error "Unterminated object")
            | '\x7d' :: r4 => .ok (.obj [(key, v)], r4)
            | _ => .error "Expecting comma delimiter in object"
        | _ => .error "Expecting colon delimiter in object"
    else if first then .error "Expecting property name enclosed in double quotes"
    else .error "Expecting property name enclosed in double quotes"

/-- Array elements after the opening bracket (whitespace already skipped). -/
def parseArrElems : Nat → List Char → Bool → Except String (JVal × List Char)
  | 0, _, _ => .error "Value nesting too deep"
  | _ + 1, [], _ => .error "Unterminated array"
  | fuel + 1, c :: rest, first =>
    if c = ']' ∧ first then .ok (.arr [], rest)
    else
      match parseVal fuel (c :: rest) with
      | .error m => .error m
      | .ok (v, r1) =>
        match skipWs r1 with
        | ',' :: r2 =>
          (match parseArrElems fuel (skipWs r2) false with
           | .error m => .error m
           | .ok (.arr elems, r3) => .ok (.arr (v :: elems), r3)
           | .ok _ => .error "Unterminated array")
        | ']' :: r2 => .ok (.arr [v], r2)
        | _ => .error "Expecting comma delimiter in array"

end

/-- Model of Python `json.loads`: parse one value and require only whitespace
after it. -/
def json_loads (s : String) : Except String JVal :=
  match parseVal (s.length + 1) s.data with
  | .error m => .error m
  | .ok (v, rest) =>
    if (skipWs rest).isEmpty then .ok v else .error "Extra data"

/-- The fallback dictionary built by `_parse_analysis_response` when the
response holds no parsable JSON (the `confidence_score = 0.5` shape). -/
def degradedFallback (response : String) : JVal :=
  .obj
    [ ("summary", .str (if response.length > 500 then
        String.mk (response.data.take 500) ++ "..." else response))
    , ("key_insights", .arr [.str "Analysis completed but response format was not JSON"])
    , ("common_perspectives", .arr [.str "Response parsing required manual review"])
    , ("regulatory_themes", .arr [])
    , ("stakeholder_concerns", .arr [])
    , ("recommendations", .arr [])
    , ("sentiment_analysis", .obj
        [ ("overall_sentiment", .str "unknown")
        , ("confidence", .num (1/2))
        , ("details", .str "Response format was not JSON") ])
    , ("impact_assessment", .obj
        [ ("economic_impact", .str "unknown")
        , ("implementation_challenges", .arr [])
        , ("timeline_concerns", .arr []) ])
    , ("confidence_score", .num (1/2))
    , ("total_comments_analyzed", .num 0)
    , ("raw_response", .str response) ]

/-- The dictionary built by the `json.JSONDecodeError` handler of
`_parse_analysis_response` (the `confidence_score = 0.3` shape with a
`parse_error` key holding the decoder message). -/
def decodeErrorShape (response e : String) : JVal :=
  .obj
    [ ("summary", .str "Analysis completed but response could not be parsed as JSON")
    , ("key_insights", .arr [.str "Response parsing failed"])
    , ("common_perspectives", .arr [.str "Manual review required"])
    , ("regulatory_themes", .arr [])
    , ("stakeholder_concerns", .arr [])
    , ("recommendations", .arr [])
    , ("sentiment_analysis", .obj
        [ ("overall_sentiment", .str "unknown")
        , ("confidence", .num (3/10))
        , ("details", .str ("JSON parsing error: " ++ e)) ])
    , ("impact_assessment", .obj
        [ ("economic_impact", .str "unknown")
        , ("implementation_challenges", .arr [])
        , ("timeline_concerns", .arr []) ])
    , ("confidence_score", .num (3/10))
    , ("total_comments_analyzed", .num 0)
    , ("raw_response", .str response)
    , ("parse_error", .str e) ]

/-- The slice parsed by the fenced-block branch, when that branch is taken:
`"```json" in response`, `start = find + 7`, `end = find("```", start)`,
requiring `end > start`. -/
def fencedSlice (response : String) : Option String :=
  match findSub "```json".data response.data with
  | none => none
  | some i =>
    let start := i + 7
    match findSubFrom "```".data response.data start with
    | none => none
    | some stop =>
      if stop > start then
        some (pyStrip (String.mk ((response.data.drop start).take (stop - start))))
      else none

/-- Embeds `OllamaCommentAnalyzer._parse_analysis_response`: fenced-block
extraction first, then bare parsing when the stripped response starts with an
opening brace, then the degraded fallback; a `json.loads` failure in either
parsing branch is converted into the decode-error shape. -/
def parse_analysis_response (response : String) : JVal :=
  match fencedSlice response with
  | some json_str =>
    (match json_loads json_str with
     | .ok v => v
     | .error e => decodeErrorShape response e)
  | none =>
    if pyStartsWith "\x7b" (pyStrip response) then
      match json_loads response with
      | .ok v => v
      | .error e => decodeErrorShape response e
    else degradedFallback response

/-! ## Sample inputs used by the concrete instantiations below -/

/-- The position of a theme name in the `theme_patterns` table. -/
def themeTableIdx (t : Theme) : Nat :=
  (theme_patterns.map Prod.fst).indexOf t.theme

/-- The stability relation delivered by the descending sort: scores descend,
and equal scores keep the order given by `Q`. -/
def StableRel {α : Type} (key : α → ℚ) (Q : α → α → Prop) (a b : α) : Prop :=
  key b ≤ key a ∧ (key a = key b → Q a b)

/-- A one-comment corpus whose text mentions exactly one theme keyword. -/
def sampleCorpus : Corpus :=
  prepare_comment_data
    [{ id := "1", comment_on_document_id := "D", comment_text := "cost" }]

/-- The single theme produced for `sampleCorpus`. -/
def sampleTheme : Theme :=
  { theme := "economic_impact", frequency := 1, keywords_found := ["cost"]
  , relevance_score := 1 }

/-- A corpus holding one ordinary recommendation sentence. -/
def recFailingCorpus : Corpus :=
  prepare_comment_data
    [{ id := "1", comment_on_document_id := "D"
     , comment_text := "We recommend that the deadline be extended. Thanks." }]

/-- A comment list with one non-empty and one empty text. -/
def mixedComments : List RegulationsComment :=
  [ { id := "1", comment_on_document_id := "D", comment_text := "We support this cost rule." }
  , { id := "2", comment_on_document_id := "D", comment_text := "" } ]

/-- The envelope returned for a document whose fetch yields zero comments. -/
def zeroEnvelope : AnalyzeEnvelope :=
  analyze_regulatory_comments_tool "DOC-1" [] "advanced" "2024-01-01T00:00:00"

/-! ## Helper lemmas -/

theorem mem_insertDescBy {α : Type} (key : α → ℚ) (x a : α) :
    ∀ l : List α, a ∈ insertDescBy key x l ↔ a = x ∨ a ∈ l := by
  intro l
  induction l with
  | nil => simp [insertDescBy]
  | cons y ys ih =>
    simp only [insertDescBy]
    by_cases h : key x < key y
    · rw [if_pos h]
      simp only [List.mem_cons, ih]
      tauto
    · rw [if_neg h]
      simp only [List.mem_cons]

theorem mem_sortDescBy {α : Type} (key : α → ℚ) (a : α) :
    ∀ l : List α, a ∈ sortDescBy key l ↔ a ∈ l := by
  intro l
  induction l with
  | nil => simp [sortDescBy]
  | cons y ys ih =>
    simp only [sortDescBy, mem_insertDescBy, ih, List.mem_cons]

theorem pairwise_insertDescBy {α : Type} (key : α → ℚ) (Q : α → α → Prop) (x : α) :
    ∀ l : List α, l.Pairwise (StableRel key Q) → (∀ y ∈ l, Q x y) →
      (insertDescBy key x l).Pairwise (StableRel key Q) := by
  intro l
  induction l with
  | nil => intro _ _; simp [insertDescBy]
  | cons y ys ih =>
    intro hl hx
    rw [List.pairwise_cons] at hl
    obtain ⟨hy, hys⟩ := hl
    simp only [insertDescBy]
    by_cases h : key x < key y
    · rw [if_pos h, List.pairwise_cons]
      refine ⟨fun z hz => ?_, ih hys (fun z hz => hx z (List.mem_cons_of_mem _ hz))⟩
      rw [mem_insertDescBy] at hz
      rcases hz with rfl | hz
      · exact ⟨le_of_lt h, fun he => absurd he (ne_of_gt h)⟩
      · exact hy z hz
    · rw [if_neg h, List.pairwise_cons]
      refine ⟨fun z hz => ?_, List.pairwise_cons.mpr ⟨hy, hys⟩⟩
      rcases List.mem_cons.mp hz with rfl | hz
      · exact ⟨not_lt.mp h, fun _ => hx z (List.mem_cons_self _ _)⟩
      · exact ⟨le_trans (hy z hz).1 (not_lt.mp h), fun _ => hx z (List.mem_cons_of_mem _ hz)⟩

theorem pairwise_sortDescBy {α : Type} (key : α → ℚ) (Q : α → α → Prop) :
    ∀ l : List α, l.Pairwise Q → (sortDescBy key l).Pairwise (StableRel key Q) := by
  intro l
  induction l with
  | nil => intro _; simp [sortDescBy]
  | cons x xs ih =>
    intro hl
    rw [List.pairwise_cons] at hl
    obtain ⟨hx, hxs⟩ := hl
    exact pairwise_insertDescBy key Q x _ (ih hxs)
      (fun y hy => hx y ((mem_sortDescBy key y xs).mp hy))

theorem mkTheme_fields {texts : List String} {all_text : String}
    {p : String × List String} {t : Theme}
    (h : mkTheme texts all_text p = some t) :
    t.theme = p.1 ∧ 0 < t.frequency ∧
      t.relevance_score = min ((t.frequency : ℚ) / (texts.length : ℚ)) 1 := by
  simp only [mkTheme] at h
  split at h
  · cases h
    refine ⟨rfl, by assumption, rfl⟩
  · cases h

/-- Every emitted theme has positive frequency and quotient-with-clamp score. -/
theorem theme_mem_spec (cd : Corpus) :
    ∀ t ∈ identify_regulatory_themes cd,
      0 < t.frequency ∧
        t.relevance_score = min ((t.frequency : ℚ) / (cd.texts.length : ℚ)) 1 := by
  intro t ht
  simp only [identify_regulatory_themes] at ht
  have ht2 := List.take_subset 5 _ ht
  rw [mem_sortDescBy] at ht2
  obtain ⟨p, _, he⟩ := List.mem_filterMap.mp ht2
  exact (mkTheme_fields he).2

/-- The theme list is capped at five entries. -/
theorem themes_length_le (cd : Corpus) : (identify_regulatory_themes cd).length ≤ 5 := by
  simp only [identify_regulatory_themes]
  exact List.length_take_le 5 _

/-- The theme list is sorted by descending score, ties in table order. -/
theorem themes_pairwise (cd : Corpus) :
    (identify_regulatory_themes cd).Pairwise
      (StableRel (fun t => t.relevance_score) (fun a b => themeTableIdx a < themeTableIdx b)) := by
  simp only [identify_regulatory_themes]
  refine List.Pairwise.sublist (List.take_sublist 5 _) ?_
  refine pairwise_sortDescBy _ _ _ ?_
  rw [List.pairwise_filterMap]
  have htable : theme_patterns.Pairwise (fun p q =>
      ((theme_patterns.map Prod.fst).indexOf p.1 : Nat) <
        (theme_patterns.map Prod.fst).indexOf q.1) := by decide
  refine htable.imp_of_mem ?_
  intro p q _ _ hpq x hx y hy
  have hxp := (mkTheme_fields hx).1
  have hyq := (mkTheme_fields hy).1
  simpa only [themeTableIdx, hxp, hyq] using hpq

/-- Every emitted impact has positive mention count and quotient score. -/
theorem impact_mem_spec (cd : Corpus) :
    ∀ i ∈ assess_regulatory_impacts cd,
      0 < i.mention_count ∧
        i.impact_score = (i.mention_count : ℚ) / (cd.texts.length : ℚ) := by
  intro i hi
  simp only [assess_regulatory_impacts] at hi
  obtain ⟨p, _, he⟩ := List.mem_filterMap.mp hi
  split at he
  · cases he
    refine ⟨by assumption, rfl⟩
  · cases he

/-- The confidence dictionary equals the spec formula applied to the total:
the other three arguments are never read. -/
theorem calc_confidence_eq_spec (cd : Corpus) (ba : BasicAnalysis)
    (th : List Theme) (ia : List ImpactAssessment) :
    calculate_confidence_scores cd ba th ia = spec_confidence_vector cd.total_comments := by
  simp [calculate_confidence_scores, spec_confidence_vector]

theorem length_filter_lt_of_exists {α : Type} (p : α → Bool) (l : List α)
    (h : ∃ x ∈ l, ¬p x = true) : (l.filter p).length < l.length :=
  List.length_filter_lt_length_iff_exists.mpr h

/-! ## Claim theorems -/

/-- C1: for every corpus, the confidence vector is a pure function of the
total comment count alone: base 0.8 when total is at least 20, 0.6 at least
10, 0.4 at least 5, else 0.2; each per-dimension confidence is the base plus
a fixed offset (key_points +0.1, stakeholder +0.05, theme +0.15, impact +0.1,
sentiment +0.0), clamped to at most 1 — stated as equality with
`spec_confidence_vector`, which is written from the spec wording; in
particular total 7 gives overall 0.4, total 20 gives 0.8, total 3 gives 0.2. -/
theorem confidence_vector_pure_function_of_total :
    (∀ (cd : Corpus) (ba : BasicAnalysis) (th : List Theme) (ia : List ImpactAssessment),
        calculate_confidence_scores cd ba th ia = spec_confidence_vector cd.total_comments) ∧
    (spec_confidence_vector 7).overall_confidence = 2/5 ∧
    (spec_confidence_vector 20).overall_confidence = 4/5 ∧
    (spec_confidence_vector 3).overall_confidence = 1/5 :=
  ⟨calc_confidence_eq_spec, by norm_num [spec_confidence_vector],
    by norm_num [spec_confidence_vector], by norm_num [spec_confidence_vector]⟩

/-- C2: for every corpus, the returned theme list contains only themes with
strictly positive keyword frequency, each scored `min(frequency/len(texts), 1)`;
the list has at most 5 entries and is sorted by descending relevance score,
equal scores keeping the first-seen order of the fixed category table. -/
theorem theme_list_bounded_sorted_stable (cd : Corpus) :
    (∀ t ∈ identify_regulatory_themes cd,
        0 < t.frequency ∧
        t.relevance_score = min ((t.frequency : ℚ) / (cd.texts.length : ℚ)) 1) ∧
    (identify_regulatory_themes cd).length ≤ 5 ∧
    (identify_regulatory_themes cd).Pairwise (fun a b =>
        b.relevance_score ≤ a.relevance_score ∧
        (a.relevance_score = b.relevance_score → themeTableIdx a < themeTableIdx b)) :=
  ⟨theme_mem_spec cd, themes_length_le cd, themes_pairwise cd⟩

/-- Witness for C2 at the concrete corpus `sampleCorpus`. -/
theorem theme_list_bounded_sorted_stable_witness :
    (0 < sampleTheme.frequency ∧
      sampleTheme.relevance_score =
        min ((sampleTheme.frequency : ℚ) / (sampleCorpus.texts.length : ℚ)) 1) ∧
    (identify_regulatory_themes sampleCorpus).length ≤ 5 := by
  obtain ⟨h1, h2, _⟩ := theme_list_bounded_sorted_stable sampleCorpus
  have he : identify_regulatory_themes sampleCorpus =
      [{ theme := "economic_impact", frequency := 1, keywords_found := ["cost"]
       , relevance_score := min (((1 : Nat) : ℚ) / ((1 : Nat) : ℚ)) 1 }] := rfl
  have hs : sampleTheme =
      { theme := "economic_impact", frequency := 1, keywords_found := ["cost"]
      , relevance_score := min (((1 : Nat) : ℚ) / ((1 : Nat) : ℚ)) 1 } := by
    simp only [sampleTheme, Theme.mk.injEq]
    norm_num
  exact ⟨h1 sampleTheme (by rw [he, hs]; exact List.mem_singleton_self _), h2⟩

/-- C3 counterexample: with zero comments the envelope is a success with the
fixed message and a zero count, but the theme, impact and concern keys are
absent from the minimal analysis dictionary rather than present as empty
collections (`none` models a missing key). -/
theorem zero_comments_theme_keys_absent :
    zeroEnvelope.success = true ∧
    zeroEnvelope.message = some "No comments found for this document" ∧
    zeroEnvelope.analysis.map (fun d => d.total_comments_analyzed) = some 0 ∧
    zeroEnvelope.analysis.map (fun d => d.regulatory_themes) = some none ∧
    zeroEnvelope.analysis.map (fun d => d.impact_assessments) = some none ∧
    zeroEnvelope.analysis.map (fun d => d.stakeholder_concerns) = some none :=
  ⟨rfl, rfl, rfl, rfl, rfl, rfl⟩

/-- C3 as amended: when the comment fetch returns zero comments the tool
returns success (not an error) with `total_comments_analyzed = 0`, empty
key-point/perspective/stakeholder lists, the fixed no-comments messages, and
no theme/impact/concern keys at all in the minimal analysis dictionary. -/
theorem zero_comments_minimal_envelope (document_id depth now : String) :
    analyze_regulatory_comments_tool document_id [] depth now =
      { success := true
      , document_id := document_id
      , message := some "No comments found for this document"
      , analysis := some
          { total_comments_analyzed := 0
          , key_points := []
          , common_perspectives := []
          , sentiment_summary := "No comments available for analysis"
          , stakeholder_types := []
          , summary := "No public comments were found for this document." } } := rfl

/-- C4: dispatching an unregistered tool name returns the failure envelope
with error `"Unknown tool: <name>"` and the list of exactly the six tool
names, and an exception raised while executing a registered tool is caught at
the dispatch boundary and converted into `success:false, error, tool`. -/
theorem execute_tool_dispatch_contract {α : Type} (tool_name : String)
    (run : String → Except String α) :
    (tool_name ∉ registered_tool_names →
        execute_tool tool_name run =
          DispatchResult.unknownTool false ("Unknown tool: " ++ tool_name)
            registered_tool_names) ∧
    get_tool_definitions.map (fun d => d.name) = registered_tool_names ∧
    (∀ e, tool_name ∈ registered_tool_names → run tool_name = .error e →
        execute_tool tool_name run = DispatchResult.caught false e tool_name) := by
  refine ⟨?_, rfl, ?_⟩
  · intro h
    simp only [registered_tool_names, List.mem_cons, List.not_mem_nil, or_false,
      not_or] at h
    obtain ⟨h1, h2, h3, h4, h5, h6⟩ := h
    simp only [execute_tool, if_neg h1, if_neg h2, if_neg h3, if_neg h4, if_neg h5, if_neg h6]
    rfl
  · intro e hmem hrun
    simp only [registered_tool_names, List.mem_cons, List.not_mem_nil, or_false] at hmem
    rcases hmem with rfl | rfl | rfl | rfl | rfl | rfl <;>
      simp [execute_tool, hrun]

/-- Witness for C4 at a concrete unknown name and a concrete raising handler. -/
theorem execute_tool_dispatch_contract_witness :
    execute_tool "bogus_tool" (fun _ => (Except.ok 0 : Except String Nat)) =
      DispatchResult.unknownTool false ("Unknown tool: " ++ "bogus_tool")
        registered_tool_names ∧
    execute_tool "get_comment_count" (fun _ => (Except.error "boom" : Except String Nat)) =
      DispatchResult.caught false "boom" "get_comment_count" := by
  constructor
  · exact (execute_tool_dispatch_contract "bogus_tool" _).1 (by decide)
  · exact (execute_tool_dispatch_contract "get_comment_count" _).2.2 "boom" (by decide) rfl

theorem fencedSlice_eq_none {response : String}
    (h : pyContains "```json" response = false) : fencedSlice response = none := by
  cases hf : findSub "```json".data response.data with
  | none => simp [fencedSlice, hf]
  | some i => rw [pyContains, hf] at h; simp at h

/-- C5: a response with no fenced JSON marker whose trimmed form does not
start with an opening brace yields the degraded shape with confidence 0.5 and
no `parse_error` key; when a JSON parse is attempted (bare brace-prefixed
text, or a fenced block) and the JSON is malformed, the result is the
degraded shape with confidence 0.3 and `parse_error` holding the decoder
message.  The parser is a total function, so it raises in no case. -/
theorem parse_response_degraded_contract (response : String) :
    (pyContains "```json" response = false →
      pyStartsWith "\x7b" (pyStrip response) = false →
        parse_analysis_response response = degradedFallback response ∧
        jlookup "confidence_score" (degradedFallback response) = some (JVal.num (1/2)) ∧
        jlookup "parse_error" (degradedFallback response) = none) ∧
    (pyContains "```json" response = false →
      pyStartsWith "\x7b" (pyStrip response) = true →
        ∀ e, json_loads response = Except.error e →
          parse_analysis_response response = decodeErrorShape response e ∧
          jlookup "confidence_score" (decodeErrorShape response e) = some (JVal.num (3/10)) ∧
          jlookup "parse_error" (decodeErrorShape response e) = some (JVal.str e)) ∧
    (∀ js e, fencedSlice response = some js → json_loads js = Except.error e →
        parse_analysis_response response = decodeErrorShape response e ∧
        jlookup "parse_error" (decodeErrorShape response e) = some (JVal.str e)) := by
  refine ⟨?_, ?_, ?_⟩
  · intro h1 h2
    refine ⟨?_, rfl, rfl⟩
    simp [parse_analysis_response, fencedSlice_eq_none h1, h2]
  · intro h1 h2 e he
    refine ⟨?_, rfl, rfl⟩
    simp [parse_analysis_response, fencedSlice_eq_none h1, h2, he]
  · intro js e hf he
    refine ⟨?_, rfl⟩
    simp only [parse_analysis_response, hf, he]

/-- Witness for C5 at the concrete responses `"plain text"` and a malformed
brace-prefixed response, whose decoder message is nonempty. -/
theorem parse_response_degraded_contract_witness :
    parse_analysis_response "plain text" = degradedFallback "plain text" ∧
    parse_analysis_response "\x7binvalid" =
      decodeErrorShape "\x7binvalid" "Expecting property name enclosed in double quotes" ∧
    "Expecting property name enclosed in double quotes" ≠ "" := by
  refine ⟨((parse_response_degraded_contract "plain text").1 (by decide) (by decide)).1,
    ?_, by decide⟩
  exact ((parse_response_degraded_contract "\x7binvalid").2.1 (by decide) (by decide) _ rfl).1

/-- C6 counterexample: parsing the fenced response yields the bare parsed
object with no `parse_mode` key at all, refuting the claim that the result
carries `parse_mode = strict_json_block`. -/
theorem parse_mode_field_missing :
    parse_analysis_response "```json\n\x7b\"a\":1\x7d\n```" = JVal.obj [("a", JVal.num 1)] ∧
    jlookup "parse_mode" (parse_analysis_response "```json\n\x7b\"a\":1\x7d\n```") = none :=
  ⟨rfl, rfl⟩

/-- C6 as amended: the fenced response parses to exactly the contained object,
and no parse result records which fallback stage produced it — the fixed
degraded and decode-error shapes also carry no `parse_mode` key (error results
are distinguishable only by their fixed fields such as `parse_error`). -/
theorem parse_fenced_yields_bare_object :
    parse_analysis_response "```json\n\x7b\"a\":1\x7d\n```" = JVal.obj [("a", JVal.num 1)] ∧
    (∀ r : String, jlookup "parse_mode" (degradedFallback r) = none) ∧
    (∀ r e : String, jlookup "parse_mode" (decodeErrorShape r e) = none) :=
  ⟨rfl, fun _ => rfl, fun _ _ => rfl⟩

/-- The two-threshold classifier shape shared by `_analyze_sentiment` and
`_identify_perspectives`: each label is reached exactly under its strict
dominance condition. -/
theorem three_way_classifier_iff (p n : ℚ) (hp : 0 ≤ p) (sP sN sM : String)
    (hPN : sP ≠ sN) (hPM : sP ≠ sM) (hNM : sN ≠ sM) :
    ((if p > n * (3/2) then sP else if n > p * (3/2) then sN else sM) = sP ↔
        p > n * (3/2)) ∧
    ((if p > n * (3/2) then sP else if n > p * (3/2) then sN else sM) = sN ↔
        n > p * (3/2)) ∧
    ((if p > n * (3/2) then sP else if n > p * (3/2) then sN else sM) = sM ↔
        (¬ p > n * (3/2) ∧ ¬ n > p * (3/2))) := by
  have hx : ¬(p > n * (3/2) ∧ n > p * (3/2)) := by
    rintro ⟨h1, h2⟩
    linarith
  by_cases h1 : p > n * (3/2)
  · rw [if_pos h1]
    exact ⟨⟨fun _ => h1, fun _ => rfl⟩,
      ⟨fun hEq => absurd hEq hPN, fun h2 => absurd ⟨h1, h2⟩ hx⟩,
      ⟨fun hEq => absurd hEq hPM, fun hc => absurd h1 hc.1⟩⟩
  · by_cases h2 : n > p * (3/2)
    · rw [if_neg h1, if_pos h2]
      exact ⟨⟨fun hEq => absurd hEq (Ne.symm hPN), fun hc => absurd hc h1⟩,
        ⟨fun _ => h2, fun _ => rfl⟩,
        ⟨fun hEq => absurd hEq hNM, fun hc => absurd h2 hc.2⟩⟩
    · rw [if_neg h1, if_neg h2]
      exact ⟨⟨fun hEq => absurd hEq (Ne.symm hPM), fun hc => absurd hc h1⟩,
        ⟨fun hEq => absurd hEq (Ne.symm hNM), fun hc => absurd hc h2⟩,
        ⟨fun _ => ⟨h1, h2⟩, fun _ => rfl⟩⟩

theorem analyze_sentiment_eq_ite (texts : List String) :
    analyze_sentiment texts =
      (if (bucketCount positive_words (corpusAllText texts) : ℚ) >
            (bucketCount negative_words (corpusAllText texts) : ℚ) * (3/2) then
          "Predominantly positive sentiment"
        else if (bucketCount negative_words (corpusAllText texts) : ℚ) >
            (bucketCount positive_words (corpusAllText texts) : ℚ) * (3/2) then
          "Predominantly negative sentiment"
        else "Mixed sentiment with both support and concerns") := by
  simp only [analyze_sentiment]

theorem identify_perspectives_head (texts : List String) :
    (identify_perspectives texts).head? = some
      (if (bucketCount support_words (corpusAllText texts) : ℚ) >
            (bucketCount opposition_words (corpusAllText texts) : ℚ) * (3/2) then
          "Generally supportive of the proposed regulation"
        else if (bucketCount opposition_words (corpusAllText texts) : ℚ) >
            (bucketCount support_words (corpusAllText texts) : ℚ) * (3/2) then
          "Generally concerned about the proposed regulation"
        else "Mixed perspectives with both support and concerns") := by
  simp only [identify_perspectives]
  split
  · rfl
  · rfl

/-- C7 counterexample: with aggregate counts positive 3 and negative 2 the
corpus satisfies the claimed threshold `count >= 1.5 x other` (3 = 1.5 x 2),
yet both the sentiment classifier and the perspective label return the mixed
classification, because the source compares with strict `>`. -/
theorem sentiment_boundary_not_clear_verdict :
    bucketCount positive_words (corpusAllText ["good good good oppose oppose"]) = 3 ∧
    bucketCount negative_words (corpusAllText ["good good good oppose oppose"]) = 2 ∧
    (3 : ℚ) ≥ (3/2) * 2 ∧
    analyze_sentiment ["good good good oppose oppose"] =
      "Mixed sentiment with both support and concerns" ∧
    identify_perspectives ["good good good oppose oppose"] =
      ["Mixed perspectives with both support and concerns"] := by
  have hp : bucketCount positive_words (corpusAllText ["good good good oppose oppose"]) = 3 := by
    decide
  have hn : bucketCount negative_words (corpusAllText ["good good good oppose oppose"]) = 2 := by
    decide
  have hs : bucketCount support_words (corpusAllText ["good good good oppose oppose"]) = 3 := by
    decide
  have ho : bucketCount opposition_words (corpusAllText ["good good good oppose oppose"]) = 2 := by
    decide
  have hc : bucketCount constructive_words (corpusAllText ["good good good oppose oppose"]) = 0 := by
    decide
  refine ⟨hp, hn, by norm_num, ?_, ?_⟩
  · rw [analyze_sentiment_eq_ite, hp, hn]
    norm_num
  · simp only [identify_perspectives, hs, ho, hc]
    norm_num

/-- C7 as amended: the classifier declares a clear verdict exactly when one
bucket has an aggregate count STRICTLY above 1.5 times the other, and is mixed
otherwise; the same strict rule governs the perspective label. -/
theorem sentiment_dominance_strict (texts : List String) :
    (analyze_sentiment texts = "Predominantly positive sentiment" ↔
      (bucketCount positive_words (corpusAllText texts) : ℚ) >
        (bucketCount negative_words (corpusAllText texts) : ℚ) * (3/2)) ∧
    (analyze_sentiment texts = "Predominantly negative sentiment" ↔
      (bucketCount negative_words (corpusAllText texts) : ℚ) >
        (bucketCount positive_words (corpusAllText texts) : ℚ) * (3/2)) ∧
    (analyze_sentiment texts = "Mixed sentiment with both support and concerns" ↔
      (¬ (bucketCount positive_words (corpusAllText texts) : ℚ) >
          (bucketCount negative_words (corpusAllText texts) : ℚ) * (3/2) ∧
       ¬ (bucketCount negative_words (corpusAllText texts) : ℚ) >
          (bucketCount positive_words (corpusAllText texts) : ℚ) * (3/2))) ∧
    ((identify_perspectives texts).head? =
        some "Generally supportive of the proposed regulation" ↔
      (bucketCount support_words (corpusAllText texts) : ℚ) >
        (bucketCount opposition_words (corpusAllText texts) : ℚ) * (3/2)) ∧
    ((identify_perspectives texts).head? =
        some "Generally concerned about the proposed regulation" ↔
      (bucketCount opposition_words (corpusAllText texts) : ℚ) >
        (bucketCount support_words (corpusAllText texts) : ℚ) * (3/2)) ∧
    ((identify_perspectives texts).head? =
        some "Mixed perspectives with both support and concerns" ↔
      (¬ (bucketCount support_words (corpusAllText texts) : ℚ) >
          (bucketCount opposition_words (corpusAllText texts) : ℚ) * (3/2) ∧
       ¬ (bucketCount opposition_words (corpusAllText texts) : ℚ) >
          (bucketCount support_words (corpusAllText texts) : ℚ) * (3/2))) := by
  have hsent := three_way_classifier_iff
    (bucketCount positive_words (corpusAllText texts) : ℚ)
    (bucketCount negative_words (corpusAllText texts) : ℚ)
    (Nat.cast_nonneg _)
    "Predominantly positive sentiment" "Predominantly negative sentiment"
    "Mixed sentiment with both support and concerns"
    (by decide) (by decide) (by decide)
  have hpers := three_way_classifier_iff
    (bucketCount support_words (corpusAllText texts) : ℚ)
    (bucketCount opposition_words (corpusAllText texts) : ℚ)
    (Nat.cast_nonneg _)
    "Generally supportive of the proposed regulation"
    "Generally concerned about the proposed regulation"
    "Mixed perspectives with both support and concerns"
    (by decide) (by decide) (by decide)
  rw [analyze_sentiment_eq_ite texts, identify_perspectives_head texts]
  simp only [Option.some.injEq]
  exact ⟨hsent.1, hsent.2.1, hsent.2.2, hpers.1, hpers.2.1, hpers.2.2⟩

/-- Witness for C7 at a concrete corpus with a strict negative dominance. -/
theorem sentiment_dominance_strict_witness :
    analyze_sentiment ["oppose oppose"] = "Predominantly negative sentiment" := by
  refine ((sentiment_dominance_strict ["oppose oppose"]).2.1).mpr ?_
  have hn : bucketCount negative_words (corpusAllText ["oppose oppose"]) = 2 := by decide
  have hp : bucketCount positive_words (corpusAllText ["oppose oppose"]) = 0 := by decide
  rw [hn, hp]
  norm_num

/-- C8 (code defect): the comment matches the recommendation phrase, but the
source splits the RAW REGEX TEXT on whitespace, so the sentence filter looks
for the literal token `recommend\s+that`, which no ordinary sentence
contains; the extractor therefore returns the empty list instead of keeping
the first sentence that shares a word with the matched phrase. -/
theorem recommendations_lost_on_failing_input :
    regexMatches ⟨["recommend", "that"], false⟩
        (pyLower "We recommend that the deadline be extended. Thanks.") = true ∧
    pySplitWs (rawPatternStr ⟨["recommend", "that"], false⟩) = ["recommend\\s+that"] ∧
    firstMatchingSentence ["recommend\\s+that"]
        (sentenceSplit "We recommend that the deadline be extended. Thanks.") = none ∧
    extract_recommendations recFailingCorpus = [] :=
  ⟨by decide, by decide, by decide, by decide⟩

/-- C9: when no internal object identifier can be resolved, the comment-count
tool returns count 0 inside a success envelope; the count function swallows
even a raising count request into 0 (so that path also yields success), and
the failure envelope `success:false, error` arises exactly when the call
raises. -/
theorem get_comment_count_error_envelope_contract (document_id now : String)
    (fetchDoc : Except String (Option String)) (fetchCount : Except String (Option Nat)) :
    (get_document_object_id fetchDoc = none →
        get_comment_count_tool document_id
            (Except.ok (get_document_comment_count fetchDoc fetchCount)) now =
          { success := true, document_id := document_id, comment_count := some 0
          , timestamp := some now }) ∧
    (∀ n : Nat, (get_comment_count_tool document_id (Except.ok n) now).success = true) ∧
    (∀ e, (get_comment_count_tool document_id
        (Except.ok (get_document_comment_count fetchDoc (Except.error e))) now).success =
          true) ∧
    (∀ e, get_comment_count_tool document_id (Except.error e) now =
        { success := false, document_id := document_id, error := some e }) := by
  refine ⟨?_, fun _ => rfl, fun _ => rfl, fun _ => rfl⟩
  intro h
  simp only [get_document_comment_count, h]
  rfl

/-- Witness for C9 at a failing document lookup and a raising call. -/
theorem get_comment_count_error_envelope_contract_witness :
    get_comment_count_tool "DOC-9"
        (Except.ok (get_document_comment_count (Except.error "lookup failed") (Except.ok none)))
        "t1" =
      { success := true, document_id := "DOC-9", comment_count := some 0
      , timestamp := some "t1" } ∧
    get_comment_count_tool "DOC-9" (Except.error "kaput") "t1" =
      { success := false, document_id := "DOC-9", error := some "kaput" } := by
  have h := get_comment_count_error_envelope_contract "DOC-9" "t1"
    (Except.error "lookup failed") (Except.ok none)
  exact ⟨h.1 rfl, h.2.2.2 "kaput"⟩

/-- C10: the corpus records the unfiltered input length as its total while
texts and stakeholders keep one entry per comment with non-empty text; the
confidence tiers read the unfiltered total, theme and impact scores divide by
the filtered texts count, and the two denominators differ whenever some
comment has empty text. -/
theorem corpus_count_vs_filtered_denominators (comments : List RegulationsComment) :
    (prepare_comment_data comments).total_comments = comments.length ∧
    (prepare_comment_data comments).texts.length =
      (comments.filter (fun c => c.comment_text ≠ "")).length ∧
    (prepare_comment_data comments).stakeholders.length =
      (comments.filter (fun c => c.comment_text ≠ "")).length ∧
    (∀ ba th ia, calculate_confidence_scores (prepare_comment_data comments) ba th ia =
        spec_confidence_vector comments.length) ∧
    (∀ t ∈ identify_regulatory_themes (prepare_comment_data comments),
        t.relevance_score =
          min ((t.frequency : ℚ) / ((prepare_comment_data comments).texts.length : ℚ)) 1) ∧
    (∀ i ∈ assess_regulatory_impacts (prepare_comment_data comments),
        i.impact_score =
          (i.mention_count : ℚ) / ((prepare_comment_data comments).texts.length : ℚ)) ∧
    ((∃ c ∈ comments, c.comment_text = "") →
        (prepare_comment_data comments).texts.length ≠
          (prepare_comment_data comments).total_comments) := by
  refine ⟨rfl, ?_, ?_, ?_, ?_, ?_, ?_⟩
  · simp [prepare_comment_data]
  · simp [prepare_comment_data]
  · intro ba th ia
    exact calc_confidence_eq_spec _ ba th ia
  · intro t ht
    exact (theme_mem_spec _ t ht).2
  · intro i hi
    exact (impact_mem_spec _ i hi).2
  · rintro ⟨c, hc, hct⟩
    have hlt : (comments.filter (fun c => c.comment_text ≠ "")).length < comments.length := by
      refine length_filter_lt_of_exists _ _ ⟨c, hc, ?_⟩
      simp [hct]
    have hx : (prepare_comment_data comments).texts.length =
        (comments.filter (fun c => c.comment_text ≠ "")).length := by
      simp [prepare_comment_data]
    rw [hx]
    exact Nat.ne_of_lt hlt

/-- Witness for C10 at a list with one empty-text comment. -/
theorem corpus_count_vs_filtered_denominators_witness :
    (prepare_comment_data mixedComments).total_comments = mixedComments.length ∧
    (prepare_comment_data mixedComments).texts.length ≠
      (prepare_comment_data mixedComments).total_comments := by
  obtain ⟨h1, _, _, _, _, _, h7⟩ := corpus_count_vs_filtered_denominators mixedComments
  exact ⟨h1, h7 ⟨{ id := "2", comment_on_document_id := "D", comment_text := "" },
    by decide, rfl⟩⟩

end Navi
